import Mathlib

/-!
Verification of the MinieSASS test-data generator
(`src/pipeline/python/generate_test_fits.py`).

The script is a single-pass Monte-Carlo event simulator.  We embed it
shallowly: machine floats become exact rationals (`ℚ`), the numpy global
random state becomes an oracle record `Rng` whose fields are one function
per random call site of the script (each taking the distribution
parameters that the script passes at that site, plus call indices), and
the FITS/catalog outputs become Lean structures and `String` lists.
`RngValid` captures the documented range contracts of the numpy samplers
that are used (`np.random.uniform(lo, hi)` draws from `[lo, hi)`,
`np.random.choice(n, p=...)` draws from `{0, ..., n-1}`,
`np.random.choice([0, 1], p=...)` draws from the given list).
-/

/-- Truncation toward zero, the behaviour of numpy `.astype(int)` on a
real value. -/
def int_of_rat (q : ℚ) : ℤ := if 0 ≤ q then ⌊q⌋ else -⌊-q⌋

/-- Rounding half to even, the behaviour of `np.round` on an exact value
(numpy rounds ties to the nearest even integer). -/
def np_round (q : ℚ) : ℤ :=
  if q - ⌊q⌋ = 1/2 then (if ⌊q⌋ % 2 = 0 then ⌊q⌋ else ⌊q⌋ + 1) else round q

/-- `np.clip` on rationals: `min (max x lo) hi`. -/
def clip (x lo hi : ℚ) : ℚ := min (max x lo) hi

/-- `np.clip` on integers (used for the 12-bit PI channel). -/
def int_clip (x lo hi : ℤ) : ℤ := min (max x lo) hi

/-- The simulator object; field defaults are the constants set in
`XRayEventSimulator.__init__` (lines 41-56 of the script):
pixel scale 4.1 arcsec/pixel, exposure 1000 s, energy gain
0.005 keV/channel, energy offset 0.2 keV, energy range [0.2, 10] keV,
background rate 1e-4 counts/s/pixel, detector 384x384. -/
structure XRayEventSimulator where
  obs_id : String
  detector_size : ℕ × ℕ := (384, 384)
  pixel_scale : ℚ := 4.1
  exposure_time : ℚ := 1000
  energy_gain : ℚ := 0.005
  energy_offset : ℚ := 0.2
  energy_range : ℚ × ℚ := (0.2, 10)
  background_rate : ℚ := 1/10000

/-- `XRayEventSimulator(obs_id)`: the constructor sets only `obs_id`;
every other attribute takes the hard-coded constant. -/
def mkSimulator (o : String) : XRayEventSimulator := { obs_id := o }

/-- Oracle for the numpy global random stream: one field per random call
site in the script, taking the distribution parameters passed there and
call indices.  `poissonSource lam i` is the draw of
`np.random.poisson(lam)` for source `i` (line 78); `psfX`/`psfY` are the
per-event `np.random.normal(mean, 2.0)` draws (lines 82-83); `srcTime` the
per-event `np.random.uniform(0, exposure)` draw (line 86); `srcEnergyExp`
the `np.random.exponential(1.5)` draw (line 89); `poissonBg` the
background count draw (line 111); `bgX`, `bgY`, `bgTime`, `bgEnergy` the
background uniform draws (lines 114-117); `choiceNat n p k` the row-`k`
draw of `np.random.choice(n, p=p)` (line 166); `choicePair l p k` the
row-`k` draw of `np.random.choice(l, p=p)` (line 169). -/
structure Rng where
  poissonSource : ℚ → ℕ → ℕ
  psfX : ℚ → ℚ → ℕ → ℕ → ℚ
  psfY : ℚ → ℚ → ℕ → ℕ → ℚ
  srcTime : ℚ → ℚ → ℕ → ℕ → ℚ
  srcEnergyExp : ℚ → ℕ → ℕ → ℚ
  poissonBg : ℚ → ℕ
  bgX : ℚ → ℚ → ℕ → ℚ
  bgY : ℚ → ℚ → ℕ → ℚ
  bgTime : ℚ → ℚ → ℕ → ℚ
  bgEnergy : ℚ → ℚ → ℕ → ℚ
  choiceNat : ℕ → List ℚ → ℕ → ℕ
  choicePair : List ℕ → List ℚ → ℕ → ℕ

/-- Documented range contracts of the numpy samplers the script calls:
`np.random.uniform(lo, hi)` lands in `[lo, hi)` (for `lo < hi`),
`np.random.choice(n, p)` lands in `{0, ..., n-1}`, and
`np.random.choice(l, p)` returns an element of `l`. -/
structure RngValid (rng : Rng) : Prop where
  srcTime_mem : ∀ lo hi i j, lo < hi →
    lo ≤ rng.srcTime lo hi i j ∧ rng.srcTime lo hi i j < hi
  bgX_mem : ∀ lo hi j, lo < hi → lo ≤ rng.bgX lo hi j ∧ rng.bgX lo hi j < hi
  bgY_mem : ∀ lo hi j, lo < hi → lo ≤ rng.bgY lo hi j ∧ rng.bgY lo hi j < hi
  bgTime_mem : ∀ lo hi j, lo < hi →
    lo ≤ rng.bgTime lo hi j ∧ rng.bgTime lo hi j < hi
  bgEnergy_mem : ∀ lo hi j, lo < hi →
    lo ≤ rng.bgEnergy lo hi j ∧ rng.bgEnergy lo hi j < hi
  choiceNat_lt : ∀ n p k, 0 < n → rng.choiceNat n p k < n
  choicePair_mem : ∀ l p k, l ≠ [] → rng.choicePair l p k ∈ l

/-- One simulated event row of `create_simple_events` (the parallel
arrays `det_x`, `det_y`, `time`, `energy`, `ra`, `dec`, `source_id`
bundled as a record). -/
structure Event where
  det_x : ℚ
  det_y : ℚ
  time : ℚ
  energy : ℚ
  ra : ℚ
  dec : ℚ
  source_id : ℕ
deriving DecidableEq

/-- Sky-to-detector transform of lines 74-75:
`det = 192 + (sky - center) * 3600 / pixel_scale`. -/
def sky_to_det (sim : XRayEventSimulator) (center sky : ℚ) : ℚ :=
  192 + (sky - center) * 3600 / sim.pixel_scale

/-- Detector-to-sky transform of lines 93-94 and 118-119:
`sky = center + (det - 192) * pixel_scale / 3600`. -/
def det_to_sky (sim : XRayEventSimulator) (center det : ℚ) : ℚ :=
  center + (det - 192) * sim.pixel_scale / 3600

/-- The Poisson mean the script passes for source `i` is
`flux * exposure_time` (line 78); `srcCount` is the resulting count. -/
def srcCount (sim : XRayEventSimulator) (rng : Rng) (i : ℕ)
    (src : ℚ × ℚ × ℚ) : ℕ :=
  rng.poissonSource (src.2.2 * sim.exposure_time) i

/-- Event `j` of source `i` (the loop body of lines 80-102): PSF-spread
detector position, uniform time in `[0, exposure)`, exponential energy
shifted by 0.5 and clipped to `[0.2, 10]`, sky position recovered through
`det_to_sky`, and `source_id = i + 1`. -/
def mk_source_event (sim : XRayEventSimulator) (rng : Rng)
    (ra_center dec_center : ℚ) (i : ℕ) (src : ℚ × ℚ × ℚ) (j : ℕ) : Event :=
  let det_x := sky_to_det sim ra_center src.1
  let det_y := sky_to_det sim dec_center src.2.1
  let sx := rng.psfX det_x 2 i j
  let sy := rng.psfY det_y 2 i j
  { det_x := sx
    det_y := sy
    time := rng.srcTime 0 sim.exposure_time i j
    energy := clip (rng.srcEnergyExp 1.5 i j + 0.5) 0.2 10
    ra := det_to_sky sim ra_center sx
    dec := det_to_sky sim dec_center sy
    source_id := i + 1 }

/-- All events of source `i` (lines 72-102; when the Poisson draw is 0
the `if total_counts > 0` guard appends nothing, matching the empty
range). -/
def source_events (sim : XRayEventSimulator) (rng : Rng)
    (ra_center dec_center : ℚ) (i : ℕ) (src : ℚ × ℚ × ℚ) : List Event :=
  (List.range (srcCount sim rng i src)).map
    (mk_source_event sim rng ra_center dec_center i src)

/-- The background count draw of lines 110-112:
`np.random.poisson(background_rate * 384 * 384 * exposure_time)`. -/
def bgCount (sim : XRayEventSimulator) (rng : Rng) : ℕ :=
  rng.poissonBg (sim.background_rate * 384 * 384 * sim.exposure_time)

/-- Background event `j` (lines 113-127): uniform detector position in
`[0, 384)`, uniform time, uniform energy in `[0.2, 10)`, sky position via
`det_to_sky`, and `source_id = 0`. -/
def mk_bg_event (sim : XRayEventSimulator) (rng : Rng)
    (ra_center dec_center : ℚ) (j : ℕ) : Event :=
  let x := rng.bgX 0 384 j
  let y := rng.bgY 0 384 j
  { det_x := x
    det_y := y
    time := rng.bgTime 0 sim.exposure_time j
    energy := rng.bgEnergy 0.2 10 j
    ra := det_to_sky sim ra_center x
    dec := det_to_sky sim dec_center y
    source_id := 0 }

/-- All background events (lines 109-129). -/
def background_events (sim : XRayEventSimulator) (rng : Rng)
    (ra_center dec_center : ℚ) : List Event :=
  (List.range (bgCount sim rng)).map (mk_bg_event sim rng ra_center dec_center)

/-- The `for i, (ra, dec, flux) in enumerate(sources)` loop: the block of
events of each source, in source order, starting at index `i0`. -/
def source_blocks (sim : XRayEventSimulator) (rng : Rng)
    (ra_center dec_center : ℚ) : ℕ → List (ℚ × ℚ × ℚ) → List (List Event)
  | _, [] => []
  | i, s :: rest =>
      source_events sim rng ra_center dec_center i s ::
        source_blocks sim rng ra_center dec_center (i + 1) rest

/-- The concatenated parallel arrays before the time sort (lines 61-138):
all source events in source order, then the background events. -/
def unsorted_events (sim : XRayEventSimulator) (rng : Rng)
    (sources : List (ℚ × ℚ × ℚ)) (ra_center dec_center : ℚ) : List Event :=
  (source_blocks sim rng ra_center dec_center 0 sources).flatten ++
    background_events sim rng ra_center dec_center

/-- `create_simple_events` (lines 58-151): generate every source's events
and the background, then sort every parallel array by the one time-order
permutation (`np.argsort(all_times)`, lines 140-151).  Sorting a list of
row records by time is exactly applying that single permutation to all
columns at once. -/
def create_simple_events (sim : XRayEventSimulator) (rng : Rng)
    (sources : List (ℚ × ℚ × ℚ)) (ra_center dec_center : ℚ) : List Event :=
  List.insertionSort (fun a b => a.time ≤ b.time)
    (unsorted_events sim rng sources ra_center dec_center)

/-- An event row after `add_realistic_columns`: the original row plus the
derived `pi`, `grade`, `status` and `frame` columns. -/
structure FullEvent extends Event where
  pi : ℤ
  grade : ℕ
  status : ℕ
  frame : ℤ
deriving DecidableEq

/-- The grade probability vector of line 165. -/
def grade_probs : List ℚ := [0.7, 0.2, 0.05, 0.03, 0.02]

/-- The status probability vector of line 170. -/
def status_probs : List ℚ := [0.95, 0.05]

/-- `add_realistic_columns` (lines 153-176): per row,
`pi = clip(round((energy - offset) / gain), 0, 4095)` (lines 159-162),
`grade = np.random.choice(5, p=grade_probs)` (line 166),
`status = np.random.choice([0, 1], p=[0.95, 0.05])` (line 169), and
`frame = int(time / 2.6)` (line 174). -/
def add_realistic_columns (sim : XRayEventSimulator) (rng : Rng)
    (events : List Event) : List FullEvent :=
  events.enum.map (fun p =>
    { toEvent := p.2
      pi := int_clip
        (np_round ((p.2.energy - sim.energy_offset) / sim.energy_gain)) 0 4095
      grade := rng.choiceNat 5 grade_probs p.1
      status := rng.choicePair [0, 1] status_probs p.1
      frame := int_of_rat (p.2.time / 2.6) })

/-- The primary-HDU header written by `write_fits_file` (lines 184-197).
`date_obs` holds `datetime.now().isoformat()`, the wall-clock time of the
run. -/
structure PrimaryHeader where
  telescop : String
  instrume : String
  obs_id : String
  object : String
  ra_nom : ℚ
  dec_nom : ℚ
  exposure : ℚ
  tstart : ℚ
  tstop : ℚ
  date_obs : String
  creator : String
deriving DecidableEq

/-- `write_fits_file` (lines 178-238), modelled as producing the file
content: the primary header and the event table rows. -/
def write_fits_file (sim : XRayEventSimulator) (events : List FullEvent)
    (now_iso : String) (ra_center dec_center : ℚ) :
    PrimaryHeader × List FullEvent :=
  ({ telescop := "eROSITA-SIM"
     instrume := "TM1"
     obs_id := sim.obs_id
     object := "Simulated Field"
     ra_nom := ra_center
     dec_nom := dec_center
     exposure := sim.exposure_time
     tstart := 0
     tstop := sim.exposure_time
     date_obs := now_iso
     creator := "MinieSASS Test Data Generator" }, events)

/-- One observation definition of `create_test_observations`
(lines 241-269). -/
structure ObsConfig where
  obs_id : String
  ra_center : ℚ
  dec_center : ℚ
  sources : List (ℚ × ℚ × ℚ)

/-- The fixed observation/source table of `create_test_observations`
(lines 244-267): five sources for TEST001 and three for TEST002, each a
`(ra, dec, flux)` triple. -/
def create_test_observations : List ObsConfig :=
  [{ obs_id := "TEST001"
     ra_center := 30
     dec_center := 10
     sources := [(30.05, 10.03, 0.150), (29.95, 10.08, 0.080),
       (30.08, 9.92, 0.040), (29.92, 9.95, 0.025), (30.02, 10.15, 0.200)] },
   { obs_id := "TEST002"
     ra_center := 45
     dec_center := -5
     sources := [(45.03, -4.97, 0.120), (44.98, -5.05, 0.060),
       (45.12, -4.88, 0.180)] }]

/-- The decimal digit character of `n % 10`. -/
def natDigitChar (n : ℕ) : Char := Char.ofNat (48 + n % 10)

/-- Decimal digits of a natural number, fuel-recursive. -/
def natToStrAux : ℕ → ℕ → String → String
  | 0, _, acc => acc
  | fuel + 1, n, acc =>
      let acc2 := String.singleton (natDigitChar n) ++ acc
      if n < 10 then acc2 else natToStrAux fuel (n / 10) acc2

/-- Decimal rendering of a natural number. -/
def natToStr (n : ℕ) : String := natToStrAux (n + 1) n ""

/-- Left-pad a string with character `c` to width `w`. -/
def padLeftWith (c : Char) (w : ℕ) (s : String) : String :=
  if w ≤ s.length then s else String.mk (List.replicate (w - s.length) c) ++ s

/-- The Python format `%8.4f` applied to the exact value `n / 10000`:
optional minus sign, integer part, dot, four fractional digits, space
padded to width 8. -/
def fmt_scaled (n : ℤ) : String :=
  let m := n.natAbs
  let sign := if n < 0 then "-" else ""
  padLeftWith ' ' 8
    (sign ++ natToStr (m / 10000) ++ "." ++ padLeftWith '0' 4 (natToStr (m % 10000)))

/-- The Python format `f"\x7bq:8.4f\x7d"` on an exact rational: round to
four decimals (ties to even, as float formatting does) and render. -/
def fmt_fixed4 (q : ℚ) : String := fmt_scaled (np_round (q * 10000))

/-- The exact rational value denoted by the `%8.4f` rendering of `q`:
what a reader of the catalog recovers from the printed text. -/
def field_value (q : ℚ) : ℚ := (np_round (q * 10000) : ℚ) / 10000

/-- One catalog data row (line 336-338):
`f"\x7bobs_id\x7d  \x7bi+1:2d\x7d  \x7bra:8.4f\x7d  \x7bdec:8.4f\x7d  \x7bflux:8.4f\x7d"`. -/
def catalog_line (obs : String) (i : ℕ) (src : ℚ × ℚ × ℚ) : String :=
  obs ++ "  " ++ padLeftWith ' ' 2 (natToStr (i + 1)) ++ "  " ++
    fmt_fixed4 src.1 ++ "  " ++ fmt_fixed4 src.2.1 ++ "  " ++ fmt_fixed4 src.2.2

/-- The catalog rows of one observation (inner loop of lines 334-338). -/
def catalog_source_lines (cfg : ObsConfig) : List String :=
  cfg.sources.enum.map (fun p => catalog_line cfg.obs_id p.1 p.2)

/-- All catalog data rows, observation by observation. -/
def catalog_data_lines : List String :=
  (create_test_observations.map catalog_source_lines).flatten

/-- The full catalog file written by `main` (lines 329-338): two header
comment lines followed by one data row per configured source. -/
def catalog_lines : List String :=
  "# MinieSASS Test Source Catalog" ::
    "# Format: OBS_ID  SOURCE_ID  RA_DEG  DEC_DEG  FLUX_CTS_PER_SEC" ::
    catalog_data_lines

/-- Outcome of the import section (lines 19-31): either the interpreter
terminated with an exit code and diagnostic output, or the module is
loaded and generation can run. -/
inductive StartupOutcome where
  | exited (code : ℕ) (messages : List String)
  | running
deriving DecidableEq

/-- The import section (lines 19-31).  `numpy` is imported outside the
`try` block (line 19): if it is missing the ImportError is uncaught and
the interpreter terminates with a traceback on stderr and exit status 1
(standard Python behaviour, modelled).  The packages of the `try` block
(lines 21-27) on failure reach the `except` handler, which prints the two
diagnostic lines and calls `exit(1)` (lines 28-31). -/
def module_import (numpy_err : Option String) (astro_err : Option String) :
    StartupOutcome :=
  match numpy_err with
  | some e => .exited 1
      ["Traceback (most recent call last):", "ImportError: " ++ e]
  | none =>
      match astro_err with
      | some e => .exited 1
          ["Missing required packages: " ++ e,
           "Install with: pip install astropy matplotlib"]
      | none => .running

/-- Whether any generation work happens after startup: `main` only runs
when the module loaded. -/
def generation_runs : StartupOutcome → Bool
  | .running => true
  | .exited _ _ => false

/-- One loop iteration of `main` (lines 287-311): build a fresh simulator
for the observation (its constructor reseeds the global stream, line 56),
generate and decorate the events, and write the FITS content, stamping
the wall-clock time `now_iso` into the header. -/
def run_observation (rng : Rng) (now_iso : String) (cfg : ObsConfig) :
    PrimaryHeader × List FullEvent :=
  let sim := mkSimulator cfg.obs_id
  let events := add_realistic_columns sim rng
    (create_simple_events sim rng cfg.sources cfg.ra_center cfg.dec_center)
  write_fits_file sim events now_iso cfg.ra_center cfg.dec_center

/-- The whole program (lines 272-345): every observation is generated
from the random stream determined by seed 42 (each simulator constructor
calls `np.random.seed(42)`), and the catalog is written at the end.
`stream_of_seed` maps a seed to the random stream it determines;
`now_iso` is the wall clock read by `datetime.now().isoformat()`. -/
def run_program (stream_of_seed : ℕ → Rng) (now_iso : String) :
    List (PrimaryHeader × List FullEvent) × List String :=
  (create_test_observations.map (run_observation (stream_of_seed 42) now_iso),
    catalog_lines)

/-- A concrete random stream used for witnesses: one event per source,
one background event, every uniform draw at the low end, choices at the
first element. -/
def trivRng : Rng where
  poissonSource := fun _ _ => 1
  psfX := fun mu _ _ _ => mu
  psfY := fun mu _ _ _ => mu
  srcTime := fun lo _ _ _ => lo
  srcEnergyExp := fun _ _ _ => 1
  poissonBg := fun _ => 1
  bgX := fun lo _ _ => lo
  bgY := fun lo _ _ => lo
  bgTime := fun lo _ _ => lo
  bgEnergy := fun lo _ _ => lo
  choiceNat := fun _ _ _ => 0
  choicePair := fun l _ _ => l.headD 0

/-- The constant stream family used in the reproducibility
counterexample. -/
def const_stream : ℕ → Rng := fun _ => trivRng

/-- The single background event generated by `trivRng` with no sources,
field center (30, 10). -/
def sample_bg : Event := mk_bg_event (mkSimulator "TEST001") trivRng 30 10 0

/-- A concrete input event row for the `add_realistic_columns`
witnesses. -/
def sample_event : Event :=
  { det_x := 100, det_y := 120, time := 10, energy := 1.5, ra := 30,
    dec := 10, source_id := 1 }

/-- The row `add_realistic_columns` derives from `sample_event` under
`trivRng`. -/
def sample_full : FullEvent :=
  { toEvent := sample_event
    pi := int_clip
      (np_round ((sample_event.energy - (mkSimulator "TEST001").energy_offset) /
        (mkSimulator "TEST001").energy_gain)) 0 4095
    grade := trivRng.choiceNat 5 grade_probs 0
    status := trivRng.choicePair [0, 1] status_probs 0
    frame := int_of_rat (sample_event.time / 2.6) }

/-- The row `add_realistic_columns` derives from `sample_bg` under
`trivRng` when it is the only generated event. -/
def sample_bg_full : FullEvent :=
  { toEvent := sample_bg
    pi := int_clip
      (np_round ((sample_bg.energy - (mkSimulator "TEST001").energy_offset) /
        (mkSimulator "TEST001").energy_gain)) 0 4095
    grade := trivRng.choiceNat 5 grade_probs 0
    status := trivRng.choicePair [0, 1] status_probs 0
    frame := int_of_rat (sample_bg.time / 2.6) }

/-- Every field except `date_obs` of a primary header. -/
def header_data (hdr : PrimaryHeader) :
    String × String × String × String × ℚ × ℚ × ℚ × ℚ × ℚ × String :=
  (hdr.telescop, hdr.instrume, hdr.obs_id, hdr.object, hdr.ra_nom,
    hdr.dec_nom, hdr.exposure, hdr.tstart, hdr.tstop, hdr.creator)

/-- Number of events of the sources from index `i0` on: the sum of the
per-source Poisson draws, as printed one by one during generation. -/
def total_src_counts (sim : XRayEventSimulator) (rng : Rng) :
    ℕ → List (ℚ × ℚ × ℚ) → ℕ
  | _, [] => 0
  | i, s :: rest => srcCount sim rng i s + total_src_counts sim rng (i + 1) rest

instance eventTimeLETotal : IsTotal Event (fun a b => a.time ≤ b.time) :=
  ⟨fun a b => le_total a.time b.time⟩

instance eventTimeLETrans : IsTrans Event (fun a b => a.time ≤ b.time) :=
  ⟨fun _ _ _ hab hbc => le_trans hab hbc⟩

/-- A small sanity check that the exported constants are the script's. -/
theorem mkSimulator_constants (o : String) :
    (mkSimulator o).pixel_scale = 41/10 ∧
    (mkSimulator o).exposure_time = 1000 ∧
    (mkSimulator o).energy_gain = 1/200 ∧
    (mkSimulator o).energy_offset = 1/5 := by
  refine ⟨?_, rfl, ?_, ?_⟩ <;> norm_num [mkSimulator]

theorem np_round_intCast (m : ℤ) : np_round ((m : ℚ)) = m := by
  norm_num [np_round]

theorem mem_source_events {sim : XRayEventSimulator} {rng : Rng}
    {rc dc : ℚ} {i : ℕ} {src : ℚ × ℚ × ℚ} {e : Event} :
    e ∈ source_events sim rng rc dc i src ↔
      ∃ j, j < srcCount sim rng i src ∧
        e = mk_source_event sim rng rc dc i src j := by
  simp [source_events, List.mem_map, List.mem_range, eq_comm]

theorem mem_background_events {sim : XRayEventSimulator} {rng : Rng}
    {rc dc : ℚ} {e : Event} :
    e ∈ background_events sim rng rc dc ↔
      ∃ j, j < bgCount sim rng ∧ e = mk_bg_event sim rng rc dc j := by
  simp [background_events, List.mem_map, List.mem_range, eq_comm]

theorem mem_source_blocks {sim : XRayEventSimulator} {rng : Rng}
    {rc dc : ℚ} {e : Event} :
    ∀ {srcs : List (ℚ × ℚ × ℚ)} {i0 : ℕ},
      e ∈ (source_blocks sim rng rc dc i0 srcs).flatten →
      ∃ k, ∃ hk : k < srcs.length, ∃ j,
        j < srcCount sim rng (i0 + k) (srcs.get ⟨k, hk⟩) ∧
        e = mk_source_event sim rng rc dc (i0 + k) (srcs.get ⟨k, hk⟩) j := by
  intro srcs
  induction srcs with
  | nil => intro i0 h; simp [source_blocks] at h
  | cons s rest ih =>
      intro i0 h
      rw [source_blocks, List.flatten_cons] at h
      rcases List.mem_append.mp h with h1 | h1
      · obtain ⟨j, hj, he⟩ := mem_source_events.mp h1
        exact ⟨0, Nat.succ_pos _, j, by simpa using hj, by simpa using he⟩
      · obtain ⟨k, hk, j, hj, he⟩ := ih h1
        refine ⟨k + 1, Nat.succ_lt_succ hk, j, ?_, ?_⟩
        · have harith : i0 + (k + 1) = i0 + 1 + k := by omega
          rw [harith]
          simpa using hj
        · have harith : i0 + (k + 1) = i0 + 1 + k := by omega
          rw [harith]
          simpa using he

theorem mk_source_event_source_id (sim : XRayEventSimulator) (rng : Rng)
    (rc dc : ℚ) (i : ℕ) (src : ℚ × ℚ × ℚ) (j : ℕ) :
    (mk_source_event sim rng rc dc i src j).source_id = i + 1 := rfl

theorem mk_bg_event_source_id (sim : XRayEventSimulator) (rng : Rng)
    (rc dc : ℚ) (j : ℕ) :
    (mk_bg_event sim rng rc dc j).source_id = 0 := rfl

theorem mem_create_simple_events {sim : XRayEventSimulator} {rng : Rng}
    {srcs : List (ℚ × ℚ × ℚ)} {rc dc : ℚ} {e : Event} :
    e ∈ create_simple_events sim rng srcs rc dc ↔
      e ∈ unsorted_events sim rng srcs rc dc :=
  (List.perm_insertionSort _ _).mem_iff

/-- C2: Every event list returned by `create_simple_events` is
non-decreasing in the TIME column (pairwise, hence for all index pairs
`i < j`), and it is a permutation of the record list built from the
concatenated parallel arrays — i.e. the one time-sorting permutation is
applied to all columns (`det_x`, `det_y`, `energy`, `ra`, `dec`,
`source_id`) at once, since each row is permuted as a whole record. -/
theorem create_simple_events_sorted_perm (sim : XRayEventSimulator)
    (rng : Rng) (srcs : List (ℚ × ℚ × ℚ)) (rc dc : ℚ) :
    List.Sorted (fun a b : Event => a.time ≤ b.time)
      (create_simple_events sim rng srcs rc dc) ∧
    (create_simple_events sim rng srcs rc dc).Perm
      (unsorted_events sim rng srcs rc dc) :=
  ⟨List.sorted_insertionSort _ _, List.perm_insertionSort _ _⟩

/-- C8: The sky-to-detector transform of lines 74-75 and the
detector-to-sky transform of lines 93-94 and 118-119 (used for both
source and background events) are exact inverses of each other over
exact arithmetic, for every field center and every input, in each
direction. -/
theorem coord_transform_round_trip (o : String) (center sky det : ℚ) :
    det_to_sky (mkSimulator o) center (sky_to_det (mkSimulator o) center sky)
      = sky ∧
    sky_to_det (mkSimulator o) center (det_to_sky (mkSimulator o) center det)
      = det := by
  constructor <;>
    · rw [det_to_sky, sky_to_det]
      have hps : (mkSimulator o).pixel_scale = 41/10 := by
        norm_num [mkSimulator]
      rw [hps]
      ring_nf

/-- C1: Every row produced by `add_realistic_columns` has its PI channel
equal to `clamp(round((energy - 0.2) / 0.005), 0, 4095)` — the rounded
(`np.round`, ties to even) linear energy-to-channel conversion with the
constructor's offset 0.2 keV and gain 0.005 keV/channel, clipped to the
12-bit range. -/
theorem pi_channel_formula (o : String) (rng : Rng) (events : List Event)
    (ev : FullEvent)
    (hev : ev ∈ add_realistic_columns (mkSimulator o) rng events) :
    ev.pi = min (max (np_round ((ev.energy - 0.2) / 0.005)) 0) 4095 := by
  obtain ⟨p, _, rfl⟩ := List.mem_map.mp hev
  rfl

theorem clip_mem (x lo hi : ℚ) (h : lo ≤ hi) :
    lo ≤ clip x lo hi ∧ clip x lo hi ≤ hi :=
  ⟨le_min (le_max_right _ _) h, min_le_right _ _⟩

theorem unsorted_event_bounds {sim : XRayEventSimulator} {rng : Rng}
    {srcs : List (ℚ × ℚ × ℚ)} {rc dc : ℚ}
    (hrng : RngValid rng) (hT : 0 < sim.exposure_time) {e : Event}
    (he : e ∈ unsorted_events sim rng srcs rc dc) :
    (0 ≤ e.time ∧ e.time < sim.exposure_time) ∧
    (0.2 ≤ e.energy ∧ e.energy ≤ 10) ∧
    (e.source_id = 0 →
      (0 ≤ e.det_x ∧ e.det_x < 384) ∧ (0 ≤ e.det_y ∧ e.det_y < 384)) := by
  rcases List.mem_append.mp he with h1 | h1
  · obtain ⟨k, hk, j, hj, rfl⟩ := mem_source_blocks h1
    refine ⟨?_, ?_, ?_⟩
    · exact hrng.srcTime_mem 0 sim.exposure_time (0 + k) j hT
    · exact clip_mem _ 0.2 10 (by norm_num)
    · intro h0
      simp [mk_source_event] at h0
  · obtain ⟨j, hj, rfl⟩ := mem_background_events.mp h1
    refine ⟨?_, ?_, ?_⟩
    · exact hrng.bgTime_mem 0 sim.exposure_time j hT
    · obtain ⟨hlo, hhi⟩ := hrng.bgEnergy_mem 0.2 10 j (by norm_num)
      exact ⟨hlo, le_of_lt hhi⟩
    · intro _
      obtain ⟨hx1, hx2⟩ := hrng.bgX_mem 0 384 j (by norm_num)
      obtain ⟨hy1, hy2⟩ := hrng.bgY_mem 0 384 j (by norm_num)
      exact ⟨⟨hx1, hx2⟩, ⟨hy1, hy2⟩⟩

/-- C3: Under the numpy sampler contracts, every event returned by
`create_simple_events` has energy within [0.2, 10.0] keV (source energies
are clipped to that interval, background energies drawn uniformly from
it), and every background event (`source_id = 0`) has both detector
coordinates within [0, 384). -/
theorem event_energy_and_bg_coords (o : String) (rng : Rng)
    (srcs : List (ℚ × ℚ × ℚ)) (rc dc : ℚ) (hrng : RngValid rng) (e : Event)
    (he : e ∈ create_simple_events (mkSimulator o) rng srcs rc dc) :
    (0.2 ≤ e.energy ∧ e.energy ≤ 10) ∧
    (e.source_id = 0 →
      (0 ≤ e.det_x ∧ e.det_x < 384) ∧ (0 ≤ e.det_y ∧ e.det_y < 384)) := by
  have hT : (0 : ℚ) < (mkSimulator o).exposure_time := by
    norm_num [mkSimulator]
  have hb := unsorted_event_bounds hrng hT (mem_create_simple_events.mp he)
  exact ⟨hb.2.1, hb.2.2⟩

/-- C10: Under the numpy sampler contracts, every row written out lies
within the header-declared time bounds `[TSTART, TSTOP] = [0, 1000]`, its
FRAME index lies in `[0, floor(exposure_time / 2.6)] = [0, 384]`, its
GRADE is one of 0-4 and its STATUS is 0 or 1. -/
theorem derived_columns_in_bounds (o : String) (rng : Rng)
    (srcs : List (ℚ × ℚ × ℚ)) (rc dc : ℚ) (now_iso : String)
    (hrng : RngValid rng) (ev : FullEvent)
    (hev : ev ∈ add_realistic_columns (mkSimulator o) rng
      (create_simple_events (mkSimulator o) rng srcs rc dc)) :
    (write_fits_file (mkSimulator o)
        (add_realistic_columns (mkSimulator o) rng
          (create_simple_events (mkSimulator o) rng srcs rc dc))
        now_iso rc dc).1.tstart ≤ ev.time ∧
    ev.time ≤ (write_fits_file (mkSimulator o)
        (add_realistic_columns (mkSimulator o) rng
          (create_simple_events (mkSimulator o) rng srcs rc dc))
        now_iso rc dc).1.tstop ∧
    0 ≤ ev.frame ∧
    ev.frame ≤ ⌊(mkSimulator o).exposure_time / 2.6⌋ ∧
    ⌊(mkSimulator o).exposure_time / 2.6⌋ = 384 ∧
    (ev.grade = 0 ∨ ev.grade = 1 ∨ ev.grade = 2 ∨ ev.grade = 3 ∨
      ev.grade = 4) ∧
    (ev.status = 0 ∨ ev.status = 1) := by
  obtain ⟨p, hp, rfl⟩ := List.mem_map.mp hev
  rcases p with ⟨i, e⟩
  have hmem : e ∈ create_simple_events (mkSimulator o) rng srcs rc dc := by
    obtain ⟨hlt, hget⟩ := List.mem_enum hp
    rw [hget]
    exact List.getElem_mem hlt
  have hT : (0 : ℚ) < (mkSimulator o).exposure_time := by
    norm_num [mkSimulator]
  have hb := unsorted_event_bounds hrng hT (mem_create_simple_events.mp hmem)
  have ht0 : (0 : ℚ) ≤ e.time := hb.1.1
  have ht1 : e.time < 1000 := hb.1.2
  have hdiv0 : (0 : ℚ) ≤ e.time / 2.6 := by positivity
  have hframe : int_of_rat (e.time / 2.6) = ⌊e.time / 2.6⌋ := if_pos hdiv0
  have hfloor : ⌊((1000 : ℚ)) / 2.6⌋ = 384 := by
    rw [Int.floor_eq_iff]
    norm_num
  refine ⟨ht0, le_of_lt ht1, ?_, ?_, hfloor, ?_, ?_⟩
  · show (0 : ℤ) ≤ int_of_rat (e.time / 2.6)
    rw [hframe]
    exact Int.floor_nonneg.mpr hdiv0
  · show int_of_rat (e.time / 2.6) ≤ ⌊((1000 : ℚ)) / 2.6⌋
    rw [hframe]
    refine Int.floor_le_floor ?_
    have ht2 : e.time ≤ 1000 := le_of_lt ht1
    gcongr
  · have h5 := hrng.choiceNat_lt 5 grade_probs i (by norm_num)
    show rng.choiceNat 5 grade_probs i = 0 ∨ rng.choiceNat 5 grade_probs i = 1 ∨
      rng.choiceNat 5 grade_probs i = 2 ∨ rng.choiceNat 5 grade_probs i = 3 ∨
      rng.choiceNat 5 grade_probs i = 4
    omega
  · have h01 := hrng.choicePair_mem [0, 1] status_probs i (by simp)
    show rng.choicePair [0, 1] status_probs i = 0 ∨
      rng.choicePair [0, 1] status_probs i = 1
    simpa using h01

theorem length_source_events (sim : XRayEventSimulator) (rng : Rng)
    (rc dc : ℚ) (i : ℕ) (src : ℚ × ℚ × ℚ) :
    (source_events sim rng rc dc i src).length = srcCount sim rng i src := by
  simp [source_events]

theorem length_background_events (sim : XRayEventSimulator) (rng : Rng)
    (rc dc : ℚ) :
    (background_events sim rng rc dc).length = bgCount sim rng := by
  simp [background_events]

theorem length_source_blocks (sim : XRayEventSimulator) (rng : Rng)
    (rc dc : ℚ) :
    ∀ (srcs : List (ℚ × ℚ × ℚ)) (i0 : ℕ),
      (source_blocks sim rng rc dc i0 srcs).flatten.length =
        total_src_counts sim rng i0 srcs := by
  intro srcs
  induction srcs with
  | nil => intro i0; simp [source_blocks, total_src_counts]
  | cons s rest ih =>
      intro i0
      rw [source_blocks, List.flatten_cons, List.length_append,
        length_source_events, ih (i0 + 1), total_src_counts]

theorem countP_source_events (sim : XRayEventSimulator) (rng : Rng)
    (rc dc : ℚ) (i : ℕ) (src : ℚ × ℚ × ℚ) (k : ℕ) :
    (source_events sim rng rc dc i src).countP (fun e => e.source_id == k) =
      if i + 1 = k then srcCount sim rng i src else 0 := by
  rw [source_events, List.countP_map]
  rcases eq_or_ne (i + 1) k with h | h
  · subst h
    rw [if_pos rfl]
    have hcomp : ((fun e : Event => e.source_id == i + 1) ∘
        mk_source_event sim rng rc dc i src) = fun _ => true := by
      funext a
      simp [Function.comp, mk_source_event_source_id]
    rw [hcomp, List.countP_true, List.length_range]
  · rw [if_neg h]
    have hcomp : ((fun e : Event => e.source_id == k) ∘
        mk_source_event sim rng rc dc i src) = fun _ => false := by
      funext a
      simpa [Function.comp, mk_source_event_source_id] using h
    rw [hcomp, List.countP_false]
    rfl

theorem countP_background_events (sim : XRayEventSimulator) (rng : Rng)
    (rc dc : ℚ) (k : ℕ) :
    (background_events sim rng rc dc).countP (fun e => e.source_id == k) =
      if k = 0 then bgCount sim rng else 0 := by
  rw [background_events, List.countP_map]
  rcases eq_or_ne k 0 with h | h
  · subst h
    rw [if_pos rfl]
    have hcomp : ((fun e : Event => e.source_id == 0) ∘
        mk_bg_event sim rng rc dc) = fun _ => true := by
      funext a
      simp [Function.comp, mk_bg_event_source_id]
    rw [hcomp, List.countP_true, List.length_range]
  · rw [if_neg h]
    have hcomp : ((fun e : Event => e.source_id == k) ∘
        mk_bg_event sim rng rc dc) = fun _ => false := by
      funext a
      simpa [Function.comp, mk_bg_event_source_id] using Ne.symm h
    rw [hcomp, List.countP_false]
    rfl

theorem countP_source_blocks_low (sim : XRayEventSimulator) (rng : Rng)
    (rc dc : ℚ) :
    ∀ (srcs : List (ℚ × ℚ × ℚ)) (i0 k : ℕ), k ≤ i0 →
      (source_blocks sim rng rc dc i0 srcs).flatten.countP
        (fun e => e.source_id == k) = 0 := by
  intro srcs
  induction srcs with
  | nil => intro i0 k _; simp [source_blocks]
  | cons s rest ih =>
      intro i0 k hk
      rw [source_blocks, List.flatten_cons, List.countP_append,
        countP_source_events, if_neg (by omega), ih (i0 + 1) k (by omega)]

theorem countP_source_blocks_at (sim : XRayEventSimulator) (rng : Rng)
    (rc dc : ℚ) :
    ∀ (srcs : List (ℚ × ℚ × ℚ)) (j : ℕ) (hj : j < srcs.length) (i0 : ℕ),
      (source_blocks sim rng rc dc i0 srcs).flatten.countP
        (fun e => e.source_id == i0 + j + 1) =
        srcCount sim rng (i0 + j) (srcs.get ⟨j, hj⟩) := by
  intro srcs
  induction srcs with
  | nil => intro j hj; exact absurd hj (by simp)
  | cons s rest ih =>
      intro j hj i0
      rw [source_blocks, List.flatten_cons, List.countP_append]
      cases j with
      | zero =>
          rw [countP_source_events, if_pos (by omega),
            countP_source_blocks_low sim rng rc dc rest (i0 + 1) (i0 + 0 + 1)
              (by omega)]
          simp [length_source_events]
      | succ jj =>
          rw [countP_source_events, if_neg (by omega)]
          have hjj : jj < rest.length := by
            have hj2 := hj
            simp only [List.length_cons] at hj2
            omega
          have harith : i0 + (jj + 1) + 1 = i0 + 1 + jj + 1 := by omega
          rw [harith, ih jj hjj (i0 + 1)]
          have harith2 : i0 + 1 + jj = i0 + (jj + 1) := by omega
          rw [harith2]
          simp

/-- C4: The number of events generated for configured source `j` is the
Poisson draw whose mean parameter is exactly `flux * exposure_time` with
`exposure_time = 1000.0` s — i.e. the expected event count is flux times
exposure.  `rng.poissonSource lam j` is the `np.random.poisson(lam)`
sample of source `j`, so the equality exhibits the exact mean passed. -/
theorem source_count_poisson_mean (o : String) (rng : Rng)
    (srcs : List (ℚ × ℚ × ℚ)) (rc dc : ℚ) (j : ℕ) (hj : j < srcs.length) :
    (create_simple_events (mkSimulator o) rng srcs rc dc).countP
      (fun e => e.source_id == j + 1) =
      rng.poissonSource ((srcs.get ⟨j, hj⟩).2.2 * 1000) j := by
  rw [create_simple_events,
    List.Perm.countP_eq _ (List.perm_insertionSort _ _), unsorted_events,
    List.countP_append, countP_background_events, if_neg (by omega)]
  have h := countP_source_blocks_at (mkSimulator o) rng rc dc srcs j hj 0
  simpa [srcCount] using h

/-- C5: The total number of rows equals the sum of the per-source Poisson
counts plus the background count (the numbers printed during generation),
and the `source_id` column partitions the rows: a row has `source_id = 0`
exactly when it is a background row, the rows counted for configured
source `j` (id `j + 1`) number exactly that source's Poisson draw, and
every non-background id lies in `[1, number of sources]`. -/
theorem event_rows_partition (o : String) (rng : Rng)
    (srcs : List (ℚ × ℚ × ℚ)) (rc dc : ℚ) (j : ℕ) (hj : j < srcs.length) :
    (create_simple_events (mkSimulator o) rng srcs rc dc).length =
      total_src_counts (mkSimulator o) rng 0 srcs +
        bgCount (mkSimulator o) rng ∧
    (create_simple_events (mkSimulator o) rng srcs rc dc).countP
      (fun e => e.source_id == 0) = bgCount (mkSimulator o) rng ∧
    (create_simple_events (mkSimulator o) rng srcs rc dc).countP
      (fun e => e.source_id == j + 1) =
      srcCount (mkSimulator o) rng j (srcs.get ⟨j, hj⟩) ∧
    ∀ e ∈ create_simple_events (mkSimulator o) rng srcs rc dc,
      (e.source_id = 0 ↔
        e ∈ background_events (mkSimulator o) rng rc dc) ∧
      (e.source_id ≠ 0 → 1 ≤ e.source_id ∧ e.source_id ≤ srcs.length) := by
  refine ⟨?_, ?_, ?_, ?_⟩
  · rw [create_simple_events,
      List.Perm.length_eq (List.perm_insertionSort _ _), unsorted_events,
      List.length_append, length_source_blocks, length_background_events]
  · rw [create_simple_events,
      List.Perm.countP_eq _ (List.perm_insertionSort _ _), unsorted_events,
      List.countP_append,
      countP_source_blocks_low (mkSimulator o) rng rc dc srcs 0 0 le_rfl,
      countP_background_events, if_pos rfl, Nat.zero_add]
  · rw [create_simple_events,
      List.Perm.countP_eq _ (List.perm_insertionSort _ _), unsorted_events,
      List.countP_append, countP_background_events, if_neg (by omega)]
    have h := countP_source_blocks_at (mkSimulator o) rng rc dc srcs j hj 0
    simpa using h
  · intro e he
    rcases List.mem_append.mp (mem_create_simple_events.mp he) with h1 | h1
    · obtain ⟨k, hk, j', hj', hee⟩ := mem_source_blocks h1
      have hsid : e.source_id = k + 1 := by
        rw [hee, mk_source_event_source_id]
        omega
      constructor
      · constructor
        · intro h0
          rw [hsid] at h0
          exact absurd h0 (by simp)
        · intro hbg
          obtain ⟨j2, _, he2⟩ := mem_background_events.mp hbg
          rw [he2, mk_bg_event_source_id]
      · intro _
        rw [hsid]
        omega
    · obtain ⟨j2, _, he2⟩ := mem_background_events.mp h1
      have hsid : e.source_id = 0 := by rw [he2, mk_bg_event_source_id]
      refine ⟨⟨fun _ => h1, fun _ => hsid⟩, fun hne => absurd hsid hne⟩

/-- C7: If any required third-party import fails (numpy at line 19, or
the astropy/matplotlib block of lines 21-27), the program terminates with
exit status 1 and a non-empty printed diagnostic, and no generation work
runs.  A missing numpy aborts via the interpreter's uncaught-ImportError
path (traceback, status 1); a missing try-block package reaches the
handler of lines 28-31, which prints the diagnostic and calls exit(1). -/
theorem import_failure_exits (ne ae : Option String)
    (h : ne ≠ none ∨ ae ≠ none) :
    ∃ msgs, module_import ne ae = StartupOutcome.exited 1 msgs ∧
      msgs ≠ [] ∧ generation_runs (module_import ne ae) = false := by
  cases ne with
  | some e => exact ⟨_, rfl, by simp, rfl⟩
  | none =>
      cases ae with
      | some e => exact ⟨_, rfl, by simp, rfl⟩
      | none =>
          rcases h with h | h
          · exact absurd rfl h
          · exact absurd rfl h

/-- C9 counterexample: with the same seeded random stream, two runs of
the program at different wall-clock instants do not produce identical
output, because `write_fits_file` stamps `datetime.now().isoformat()`
into the DATE-OBS header card (line 196).  This refutes the claim that
the fixed seed alone makes event tables, headers and catalog all
identical across runs. -/
theorem reproducibility_counterexample :
    run_program const_stream "2025-07-01T00:00:00" ≠
      run_program const_stream "2025-07-01T00:00:01" := by
  intro h
  have h2 := congrArg
    (fun r => (r.1.head?).map (fun p => p.1.date_obs)) h
  simp [run_program, run_observation, write_fits_file,
    create_test_observations] at h2

/-- C9 as amended: for a fixed seed stream (the constructor seeds the
global stream with 42 on every run, so both runs consume the same
stream), two runs at arbitrary wall-clock instants produce identical
event tables, identical catalog contents, and headers identical in every
field except DATE-OBS, which records the wall-clock generation time. -/
theorem reproducibility_modulo_date (stream : ℕ → Rng) (t1 t2 : String) :
    (run_program stream t1).1.map Prod.snd =
      (run_program stream t2).1.map Prod.snd ∧
    (run_program stream t1).2 = (run_program stream t2).2 ∧
    (run_program stream t1).1.map (fun p => header_data p.1) =
      (run_program stream t2).1.map (fun p => header_data p.1) := by
  refine ⟨?_, rfl, ?_⟩ <;>
    simp [run_program, run_observation, write_fits_file, header_data,
      List.map_map, Function.comp]

/-- C6: The catalog file consists of the two header comment lines
followed by exactly one data row per configured source (8 rows: 5 for
TEST001 and 3 for TEST002), each row in the fixed whitespace-delimited
format `OBS_ID  SOURCE_ID  RA_DEG  DEC_DEG  FLUX_CTS_PER_SEC` with the
`%8.4f` renderings shown literally, and the printed four-decimal fields
denote exactly the configured RA, DEC and flux of each source
(`field_value` recovers the input value unchanged). -/
theorem catalog_file_contents :
    catalog_lines.length = 10 ∧
    catalog_data_lines.length = 8 ∧
    catalog_lines = "# MinieSASS Test Source Catalog" ::
      "# Format: OBS_ID  SOURCE_ID  RA_DEG  DEC_DEG  FLUX_CTS_PER_SEC" ::
      catalog_data_lines ∧
    catalog_data_lines =
      ["TEST001   1   30.0500   10.0300    0.1500",
       "TEST001   2   29.9500   10.0800    0.0800",
       "TEST001   3   30.0800    9.9200    0.0400",
       "TEST001   4   29.9200    9.9500    0.0250",
       "TEST001   5   30.0200   10.1500    0.2000",
       "TEST002   1   45.0300   -4.9700    0.1200",
       "TEST002   2   44.9800   -5.0500    0.0600",
       "TEST002   3   45.1200   -4.8800    0.1800"] ∧
    create_test_observations.map
        (fun cfg => cfg.sources.map
          (fun s => (field_value s.1, field_value s.2.1, field_value s.2.2))) =
      create_test_observations.map (fun cfg => cfg.sources) := by
  have hq01 : (((30.05 : ℚ)) * 10000) = (((300500 : ℤ)) : ℚ) := by norm_num
  have eq01 : fmt_fixed4 ((30.05 : ℚ)) = fmt_scaled (300500 : ℤ) := by
    simp only [fmt_fixed4]
    rw [hq01, np_round_intCast]
  have vq01 : field_value ((30.05 : ℚ)) = ((30.05 : ℚ)) := by
    simp only [field_value]
    rw [hq01, np_round_intCast]
    norm_num
  have hq02 : (((10.03 : ℚ)) * 10000) = (((100300 : ℤ)) : ℚ) := by norm_num
  have eq02 : fmt_fixed4 ((10.03 : ℚ)) = fmt_scaled (100300 : ℤ) := by
    simp only [fmt_fixed4]
    rw [hq02, np_round_intCast]
  have vq02 : field_value ((10.03 : ℚ)) = ((10.03 : ℚ)) := by
    simp only [field_value]
    rw [hq02, np_round_intCast]
    norm_num
  have hq03 : (((0.150 : ℚ)) * 10000) = (((1500 : ℤ)) : ℚ) := by norm_num
  have eq03 : fmt_fixed4 ((0.150 : ℚ)) = fmt_scaled (1500 : ℤ) := by
    simp only [fmt_fixed4]
    rw [hq03, np_round_intCast]
  have vq03 : field_value ((0.150 : ℚ)) = ((0.150 : ℚ)) := by
    simp only [field_value]
    rw [hq03, np_round_intCast]
    norm_num
  have hq04 : (((29.95 : ℚ)) * 10000) = (((299500 : ℤ)) : ℚ) := by norm_num
  have eq04 : fmt_fixed4 ((29.95 : ℚ)) = fmt_scaled (299500 : ℤ) := by
    simp only [fmt_fixed4]
    rw [hq04, np_round_intCast]
  have vq04 : field_value ((29.95 : ℚ)) = ((29.95 : ℚ)) := by
    simp only [field_value]
    rw [hq04, np_round_intCast]
    norm_num
  have hq05 : (((10.08 : ℚ)) * 10000) = (((100800 : ℤ)) : ℚ) := by norm_num
  have eq05 : fmt_fixed4 ((10.08 : ℚ)) = fmt_scaled (100800 : ℤ) := by
    simp only [fmt_fixed4]
    rw [hq05, np_round_intCast]
  have vq05 : field_value ((10.08 : ℚ)) = ((10.08 : ℚ)) := by
    simp only [field_value]
    rw [hq05, np_round_intCast]
    norm_num
  have hq06 : (((0.080 : ℚ)) * 10000) = (((800 : ℤ)) : ℚ) := by norm_num
  have eq06 : fmt_fixed4 ((0.080 : ℚ)) = fmt_scaled (800 : ℤ) := by
    simp only [fmt_fixed4]
    rw [hq06, np_round_intCast]
  have vq06 : field_value ((0.080 : ℚ)) = ((0.080 : ℚ)) := by
    simp only [field_value]
    rw [hq06, np_round_intCast]
    norm_num
  have hq07 : (((30.08 : ℚ)) * 10000) = (((300800 : ℤ)) : ℚ) := by norm_num
  have eq07 : fmt_fixed4 ((30.08 : ℚ)) = fmt_scaled (300800 : ℤ) := by
    simp only [fmt_fixed4]
    rw [hq07, np_round_intCast]
  have vq07 : field_value ((30.08 : ℚ)) = ((30.08 : ℚ)) := by
    simp only [field_value]
    rw [hq07, np_round_intCast]
    norm_num
  have hq08 : (((9.92 : ℚ)) * 10000) = (((99200 : ℤ)) : ℚ) := by norm_num
  have eq08 : fmt_fixed4 ((9.92 : ℚ)) = fmt_scaled (99200 : ℤ) := by
    simp only [fmt_fixed4]
    rw [hq08, np_round_intCast]
  have vq08 : field_value ((9.92 : ℚ)) = ((9.92 : ℚ)) := by
    simp only [field_value]
    rw [hq08, np_round_intCast]
    norm_num
  have hq09 : (((0.040 : ℚ)) * 10000) = (((400 : ℤ)) : ℚ) := by norm_num
  have eq09 : fmt_fixed4 ((0.040 : ℚ)) = fmt_scaled (400 : ℤ) := by
    simp only [fmt_fixed4]
    rw [hq09, np_round_intCast]
  have vq09 : field_value ((0.040 : ℚ)) = ((0.040 : ℚ)) := by
    simp only [field_value]
    rw [hq09, np_round_intCast]
    norm_num
  have hq10 : (((29.92 : ℚ)) * 10000) = (((299200 : ℤ)) : ℚ) := by norm_num
  have eq10 : fmt_fixed4 ((29.92 : ℚ)) = fmt_scaled (299200 : ℤ) := by
    simp only [fmt_fixed4]
    rw [hq10, np_round_intCast]
  have vq10 : field_value ((29.92 : ℚ)) = ((29.92 : ℚ)) := by
    simp only [field_value]
    rw [hq10, np_round_intCast]
    norm_num
  have hq11 : (((9.95 : ℚ)) * 10000) = (((99500 : ℤ)) : ℚ) := by norm_num
  have eq11 : fmt_fixed4 ((9.95 : ℚ)) = fmt_scaled (99500 : ℤ) := by
    simp only [fmt_fixed4]
    rw [hq11, np_round_intCast]
  have vq11 : field_value ((9.95 : ℚ)) = ((9.95 : ℚ)) := by
    simp only [field_value]
    rw [hq11, np_round_intCast]
    norm_num
  have hq12 : (((0.025 : ℚ)) * 10000) = (((250 : ℤ)) : ℚ) := by norm_num
  have eq12 : fmt_fixed4 ((0.025 : ℚ)) = fmt_scaled (250 : ℤ) := by
    simp only [fmt_fixed4]
    rw [hq12, np_round_intCast]
  have vq12 : field_value ((0.025 : ℚ)) = ((0.025 : ℚ)) := by
    simp only [field_value]
    rw [hq12, np_round_intCast]
    norm_num
  have hq13 : (((30.02 : ℚ)) * 10000) = (((300200 : ℤ)) : ℚ) := by norm_num
  have eq13 : fmt_fixed4 ((30.02 : ℚ)) = fmt_scaled (300200 : ℤ) := by
    simp only [fmt_fixed4]
    rw [hq13, np_round_intCast]
  have vq13 : field_value ((30.02 : ℚ)) = ((30.02 : ℚ)) := by
    simp only [field_value]
    rw [hq13, np_round_intCast]
    norm_num
  have hq14 : (((10.15 : ℚ)) * 10000) = (((101500 : ℤ)) : ℚ) := by norm_num
  have eq14 : fmt_fixed4 ((10.15 : ℚ)) = fmt_scaled (101500 : ℤ) := by
    simp only [fmt_fixed4]
    rw [hq14, np_round_intCast]
  have vq14 : field_value ((10.15 : ℚ)) = ((10.15 : ℚ)) := by
    simp only [field_value]
    rw [hq14, np_round_intCast]
    norm_num
  have hq15 : (((0.200 : ℚ)) * 10000) = (((2000 : ℤ)) : ℚ) := by norm_num
  have eq15 : fmt_fixed4 ((0.200 : ℚ)) = fmt_scaled (2000 : ℤ) := by
    simp only [fmt_fixed4]
    rw [hq15, np_round_intCast]
  have vq15 : field_value ((0.200 : ℚ)) = ((0.200 : ℚ)) := by
    simp only [field_value]
    rw [hq15, np_round_intCast]
    norm_num
  have hq16 : (((45.03 : ℚ)) * 10000) = (((450300 : ℤ)) : ℚ) := by norm_num
  have eq16 : fmt_fixed4 ((45.03 : ℚ)) = fmt_scaled (450300 : ℤ) := by
    simp only [fmt_fixed4]
    rw [hq16, np_round_intCast]
  have vq16 : field_value ((45.03 : ℚ)) = ((45.03 : ℚ)) := by
    simp only [field_value]
    rw [hq16, np_round_intCast]
    norm_num
  have hq17 : (((-4.97 : ℚ)) * 10000) = (((-49700 : ℤ)) : ℚ) := by norm_num
  have eq17 : fmt_fixed4 ((-4.97 : ℚ)) = fmt_scaled (-49700 : ℤ) := by
    simp only [fmt_fixed4]
    rw [hq17, np_round_intCast]
  have vq17 : field_value ((-4.97 : ℚ)) = ((-4.97 : ℚ)) := by
    simp only [field_value]
    rw [hq17, np_round_intCast]
    norm_num
  have hq18 : (((0.120 : ℚ)) * 10000) = (((1200 : ℤ)) : ℚ) := by norm_num
  have eq18 : fmt_fixed4 ((0.120 : ℚ)) = fmt_scaled (1200 : ℤ) := by
    simp only [fmt_fixed4]
    rw [hq18, np_round_intCast]
  have vq18 : field_value ((0.120 : ℚ)) = ((0.120 : ℚ)) := by
    simp only [field_value]
    rw [hq18, np_round_intCast]
    norm_num
  have hq19 : (((44.98 : ℚ)) * 10000) = (((449800 : ℤ)) : ℚ) := by norm_num
  have eq19 : fmt_fixed4 ((44.98 : ℚ)) = fmt_scaled (449800 : ℤ) := by
    simp only [fmt_fixed4]
    rw [hq19, np_round_intCast]
  have vq19 : field_value ((44.98 : ℚ)) = ((44.98 : ℚ)) := by
    simp only [field_value]
    rw [hq19, np_round_intCast]
    norm_num
  have hq20 : (((-5.05 : ℚ)) * 10000) = (((-50500 : ℤ)) : ℚ) := by norm_num
  have eq20 : fmt_fixed4 ((-5.05 : ℚ)) = fmt_scaled (-50500 : ℤ) := by
    simp only [fmt_fixed4]
    rw [hq20, np_round_intCast]
  have vq20 : field_value ((-5.05 : ℚ)) = ((-5.05 : ℚ)) := by
    simp only [field_value]
    rw [hq20, np_round_intCast]
    norm_num
  have hq21 : (((0.060 : ℚ)) * 10000) = (((600 : ℤ)) : ℚ) := by norm_num
  have eq21 : fmt_fixed4 ((0.060 : ℚ)) = fmt_scaled (600 : ℤ) := by
    simp only [fmt_fixed4]
    rw [hq21, np_round_intCast]
  have vq21 : field_value ((0.060 : ℚ)) = ((0.060 : ℚ)) := by
    simp only [field_value]
    rw [hq21, np_round_intCast]
    norm_num
  have hq22 : (((45.12 : ℚ)) * 10000) = (((451200 : ℤ)) : ℚ) := by norm_num
  have eq22 : fmt_fixed4 ((45.12 : ℚ)) = fmt_scaled (451200 : ℤ) := by
    simp only [fmt_fixed4]
    rw [hq22, np_round_intCast]
  have vq22 : field_value ((45.12 : ℚ)) = ((45.12 : ℚ)) := by
    simp only [field_value]
    rw [hq22, np_round_intCast]
    norm_num
  have hq23 : (((-4.88 : ℚ)) * 10000) = (((-48800 : ℤ)) : ℚ) := by norm_num
  have eq23 : fmt_fixed4 ((-4.88 : ℚ)) = fmt_scaled (-48800 : ℤ) := by
    simp only [fmt_fixed4]
    rw [hq23, np_round_intCast]
  have vq23 : field_value ((-4.88 : ℚ)) = ((-4.88 : ℚ)) := by
    simp only [field_value]
    rw [hq23, np_round_intCast]
    norm_num
  have hq24 : (((0.180 : ℚ)) * 10000) = (((1800 : ℤ)) : ℚ) := by norm_num
  have eq24 : fmt_fixed4 ((0.180 : ℚ)) = fmt_scaled (1800 : ℤ) := by
    simp only [fmt_fixed4]
    rw [hq24, np_round_intCast]
  have vq24 : field_value ((0.180 : ℚ)) = ((0.180 : ℚ)) := by
    simp only [field_value]
    rw [hq24, np_round_intCast]
    norm_num
  refine ⟨rfl, rfl, rfl, ?_, ?_⟩
  · simp only [catalog_data_lines, create_test_observations,
      catalog_source_lines, List.map_cons, List.map_nil, List.flatten_cons,
      List.flatten_nil, List.append_nil, List.enum, List.enumFrom,
      catalog_line, eq01, eq02, eq03, eq04, eq05, eq06, eq07, eq08, eq09,
      eq10, eq11, eq12, eq13, eq14, eq15, eq16, eq17, eq18, eq19, eq20,
      eq21, eq22, eq23, eq24]
    decide
  · simp only [create_test_observations, List.map_cons, List.map_nil,
      vq01, vq02, vq03, vq04, vq05, vq06, vq07, vq08, vq09, vq10, vq11,
      vq12, vq13, vq14, vq15, vq16, vq17, vq18, vq19, vq20, vq21, vq22,
      vq23, vq24]

theorem trivRng_valid : RngValid trivRng :=
  { srcTime_mem := fun lo _ _ _ h => ⟨le_rfl, h⟩
    bgX_mem := fun lo _ _ h => ⟨le_rfl, h⟩
    bgY_mem := fun lo _ _ h => ⟨le_rfl, h⟩
    bgTime_mem := fun lo _ _ h => ⟨le_rfl, h⟩
    bgEnergy_mem := fun lo _ _ h => ⟨le_rfl, h⟩
    choiceNat_lt := fun _ _ _ h => h
    choicePair_mem := fun l _ _ h => by
      cases l with
      | nil => exact absurd rfl h
      | cons a t => exact List.mem_cons_self a t }

theorem pi_channel_formula_witness :
    sample_full ∈ add_realistic_columns (mkSimulator "TEST001") trivRng
      [sample_event] ∧
    sample_full.pi =
      min (max (np_round ((sample_full.energy - 0.2) / 0.005)) 0) 4095 := by
  have hm : sample_full ∈ add_realistic_columns (mkSimulator "TEST001")
      trivRng [sample_event] := by
    simp [add_realistic_columns, List.enum, List.enumFrom, sample_full]
  exact ⟨hm, pi_channel_formula "TEST001" trivRng [sample_event]
    sample_full hm⟩

theorem event_energy_and_bg_coords_witness :
    RngValid trivRng ∧
    sample_bg ∈ create_simple_events (mkSimulator "TEST001") trivRng [] 30 10 ∧
    ((0.2 ≤ sample_bg.energy ∧ sample_bg.energy ≤ 10) ∧
     (sample_bg.source_id = 0 →
       (0 ≤ sample_bg.det_x ∧ sample_bg.det_x < 384) ∧
       (0 ≤ sample_bg.det_y ∧ sample_bg.det_y < 384))) := by
  have hm : sample_bg ∈ create_simple_events (mkSimulator "TEST001") trivRng
      [] 30 10 := by
    simp [create_simple_events, unsorted_events, source_blocks,
      background_events, bgCount, trivRng, List.insertionSort, sample_bg]
  exact ⟨trivRng_valid, hm, event_energy_and_bg_coords "TEST001" trivRng []
    30 10 trivRng_valid sample_bg hm⟩

theorem derived_columns_in_bounds_witness :
    RngValid trivRng ∧
    sample_bg_full ∈ add_realistic_columns (mkSimulator "TEST001") trivRng
      (create_simple_events (mkSimulator "TEST001") trivRng [] 30 10) ∧
    ((write_fits_file (mkSimulator "TEST001")
        (add_realistic_columns (mkSimulator "TEST001") trivRng
          (create_simple_events (mkSimulator "TEST001") trivRng [] 30 10))
        "2025-07-01T00:00:00" 30 10).1.tstart ≤ sample_bg_full.time ∧
     sample_bg_full.time ≤ (write_fits_file (mkSimulator "TEST001")
        (add_realistic_columns (mkSimulator "TEST001") trivRng
          (create_simple_events (mkSimulator "TEST001") trivRng [] 30 10))
        "2025-07-01T00:00:00" 30 10).1.tstop ∧
     0 ≤ sample_bg_full.frame ∧
     sample_bg_full.frame ≤ ⌊(mkSimulator "TEST001").exposure_time / 2.6⌋ ∧
     ⌊(mkSimulator "TEST001").exposure_time / 2.6⌋ = 384 ∧
     (sample_bg_full.grade = 0 ∨ sample_bg_full.grade = 1 ∨
       sample_bg_full.grade = 2 ∨ sample_bg_full.grade = 3 ∨
       sample_bg_full.grade = 4) ∧
     (sample_bg_full.status = 0 ∨ sample_bg_full.status = 1)) := by
  have hm : sample_bg_full ∈ add_realistic_columns (mkSimulator "TEST001")
      trivRng (create_simple_events (mkSimulator "TEST001") trivRng
        [] 30 10) := by
    simp [add_realistic_columns, create_simple_events, unsorted_events,
      source_blocks, background_events, bgCount, trivRng,
      List.insertionSort, List.enum, List.enumFrom, sample_bg_full,
      sample_bg]
  exact ⟨trivRng_valid, hm, derived_columns_in_bounds "TEST001" trivRng []
    30 10 "2025-07-01T00:00:00" trivRng_valid sample_bg_full hm⟩

theorem source_count_poisson_mean_witness :
    (0 : ℕ) < ([((30.05 : ℚ), (10.03 : ℚ), (0.150 : ℚ))]).length ∧
    (create_simple_events (mkSimulator "TEST001") trivRng
        [((30.05 : ℚ), (10.03 : ℚ), (0.150 : ℚ))] 30 10).countP
      (fun e => e.source_id == 0 + 1) =
      trivRng.poissonSource ((0.150 : ℚ) * 1000) 0 := by
  have h0 : (0 : ℕ) < ([((30.05 : ℚ), (10.03 : ℚ), (0.150 : ℚ))]).length := by
    simp
  exact ⟨h0, source_count_poisson_mean "TEST001" trivRng
    [((30.05 : ℚ), (10.03 : ℚ), (0.150 : ℚ))] 30 10 0 h0⟩

theorem event_rows_partition_witness :
    (0 : ℕ) < ([((30.05 : ℚ), (10.03 : ℚ), (0.150 : ℚ))]).length ∧
    ((create_simple_events (mkSimulator "TEST001") trivRng
        [((30.05 : ℚ), (10.03 : ℚ), (0.150 : ℚ))] 30 10).length =
      total_src_counts (mkSimulator "TEST001") trivRng 0
        [((30.05 : ℚ), (10.03 : ℚ), (0.150 : ℚ))] +
        bgCount (mkSimulator "TEST001") trivRng ∧
     (create_simple_events (mkSimulator "TEST001") trivRng
        [((30.05 : ℚ), (10.03 : ℚ), (0.150 : ℚ))] 30 10).countP
       (fun e => e.source_id == 0) = bgCount (mkSimulator "TEST001") trivRng ∧
     (create_simple_events (mkSimulator "TEST001") trivRng
        [((30.05 : ℚ), (10.03 : ℚ), (0.150 : ℚ))] 30 10).countP
       (fun e => e.source_id == 0 + 1) =
       srcCount (mkSimulator "TEST001") trivRng 0
         ((30.05 : ℚ), (10.03 : ℚ), (0.150 : ℚ)) ∧
     ∀ e ∈ create_simple_events (mkSimulator "TEST001") trivRng
        [((30.05 : ℚ), (10.03 : ℚ), (0.150 : ℚ))] 30 10,
       (e.source_id = 0 ↔
         e ∈ background_events (mkSimulator "TEST001") trivRng 30 10) ∧
       (e.source_id ≠ 0 → 1 ≤ e.source_id ∧
         e.source_id ≤ ([((30.05 : ℚ), (10.03 : ℚ), (0.150 : ℚ))]).length)) := by
  have h0 : (0 : ℕ) < ([((30.05 : ℚ), (10.03 : ℚ), (0.150 : ℚ))]).length := by
    simp
  exact ⟨h0, event_rows_partition "TEST001" trivRng
    [((30.05 : ℚ), (10.03 : ℚ), (0.150 : ℚ))] 30 10 0 h0⟩

theorem import_failure_exits_witness :
    ((none : Option String) ≠ none ∨
      (some "No module named astropy" : Option String) ≠ none) ∧
    ∃ msgs, module_import none (some "No module named astropy") =
        StartupOutcome.exited 1 msgs ∧ msgs ≠ [] ∧
      generation_runs
        (module_import none (some "No module named astropy")) = false := by
  have h : (none : Option String) ≠ none ∨
      (some "No module named astropy" : Option String) ≠ none :=
    Or.inr (by simp)
  exact ⟨h, import_failure_exits none (some "No module named astropy") h⟩
